import Mathlib

/-!
Shallow embedding of the Signal Analysis Engine of the lucid-observability-agent
repository: the diagnosis classifier and severity scorer (`src/tools/diagnosis.ts`,
`buildDiagnosis`), the temporal-pattern detector
(`src/core/helpers/temporal.ts`, `detectTemporalPattern`), the cross-service
correlator (`src/tools/diagnosis.ts`, `cross_correlate` handler), and the queue
health / usage anomaly analyzers (`src/core/tools/openmeter.ts`).

Conventions used throughout:
- JS numbers are embedded as `Int` (counts, epoch milliseconds) or `ℚ` (values
  on which the source performs division); all arithmetic in the source on the
  concrete inputs appearing below is exact in ℚ.
- Timestamp strings are embedded as already-parsed epoch milliseconds (`Int`);
  the `new Date(t).getTime()` parse is the caller-side boundary.
- JS truthiness on optional values is made explicit (`truthyStr` for optional
  string parameters, `truthyCol` for driver-returned aggregate columns, which
  node-postgres delivers as strings — nonempty strings, even "0", are truthy).
-/

namespace LucidObs

/-- Embeds JavaScript `.toLowerCase()` on the ASCII error texts handled by the
classifier: per-character lowercasing of the underlying character list. -/
def lowerStr (s : String) : String := ⟨s.data.map Char.toLower⟩

/-- Embeds JavaScript `s.includes(kw)`: `kw` occurs as a contiguous substring
of `s` (some tail of `s` starts with `kw`); the empty keyword matches
everything, as in JS. -/
def substrIncludes (s kw : String) : Bool :=
  s.toList.tails.any fun t => kw.toList.isPrefixOf t

/- ── Timestamp Series Classifier (src/core/helpers/temporal.ts) ─────────── -/

inductive TemporalPattern
  | burst
  | steady
  | regression
  | sporadic
  | unknown
deriving DecidableEq, Repr

/-- Embeds `detectTemporalPattern` from `src/core/helpers/temporal.ts`.
Input is the timestamp list already parsed to epoch milliseconds.
The source's floating-point expressions are carried out exactly in ℚ:
- `eventsInFirst20Pct / times.length > 0.8` and `spanHours > 1` verbatim in ℚ;
- the steady check `cv < 0.5` with `cv = sqrt(variance)/avgGap` is squared to
  `variance < (avgGap/2)^2 ∧ 0 < avgGap`, which is equivalent for `avgGap > 0`
  and, like the source's NaN comparison (`0/0 < 0.5` is false), false when
  `avgGap = 0`.
Only the pattern verdict is modelled; the human-readable `description` string
is presentation-only and carries no decision logic. -/
def detectTemporalPattern (timestamps : List Int) : TemporalPattern :=
  if timestamps.length < 2 then .unknown
  else
    -- times sorted descending, as in `.sort((a, b) => b - a)` (a stable sort)
    let times := List.insertionSort (fun a b => b ≤ a) timestamps
    -- gaps between consecutive (descending) timestamps
    let gaps := List.zipWith (fun t u => t - u) times times.tail
    let avgGap : ℚ := (gaps.foldl (· + ·) 0 : Int) / (gaps.length : ℚ)
    let variance : ℚ :=
      (gaps.foldl (fun sum g => sum + ((g : ℚ) - avgGap) ^ 2) 0) / (gaps.length : ℚ)
    let spanMs : Int := times.headD 0 - (times.getLastD 0)
    let spanHours : ℚ := (spanMs : ℚ) / (1000 * 60 * 60)
    let twentyPctMark : ℚ := (times.getLastD 0 : ℚ) + (spanMs : ℚ) * 0.2
    let eventsInFirst20Pct := (times.filter fun t => decide ((t : ℚ) ≤ twentyPctMark)).length
    if (eventsInFirst20Pct : ℚ) / (times.length : ℚ) > 0.8 ∧ spanHours > 1 then .burst
    else if variance < (avgGap / 2) ^ 2 ∧ 0 < avgGap ∧ times.length ≥ 5 then .steady
    else
      let maxGap : Int := match gaps with
        | [] => 0
        | g :: gs => gs.foldl max g
      if (maxGap : ℚ) > avgGap * 5 ∧ times.length ≥ 3 then .regression
      else .sporadic

/- ── Error Classifier (src/tools/diagnosis.ts, buildDiagnosis lines 124-219) ── -/

structure Suggestion where
  action : String
  description : String
  confidence : String
  command : Option String := none
deriving DecidableEq, Repr

structure DiagnosisPattern where
  category : String
  keywords : List String
  rootCause : String
  suggestions : List Suggestion
  relatedPatterns : List String
deriving DecidableEq, Repr

structure ClassifyResult where
  category : String
  rootCause : String
  suggestions : List Suggestion
  relatedPatterns : List String
deriving DecidableEq, Repr

/-- Embeds the per-pattern match test of `buildDiagnosis`:
`pattern.keywords.some(kw => title.includes(kw) || culprit.includes(kw) || stack.includes(kw))`
over the already-normalized (lowercased) title, culprit, and joined stack. -/
def patternMatches (p : DiagnosisPattern) (title culprit stack : String) : Bool :=
  p.keywords.any fun kw =>
    substrIncludes title kw || substrIncludes culprit kw || substrIncludes stack kw

/-- Embeds the built-in fallback chain of `buildDiagnosis` (lines 146-212),
which runs whenever `category === 'application_error'` still holds after the
config-pattern scan. Each branch overwrites `category`/`rootCause` and pushes
its suggestions and related patterns onto the lists accumulated so far; the
final else-branch only pushes the two generic suggestions. -/
def builtinClassify (title : String) (r : ClassifyResult) : ClassifyResult :=
  if substrIncludes title "fetch failed" || substrIncludes title "econnrefused" ||
      substrIncludes title "enotfound" || substrIncludes title "econnreset" ||
      substrIncludes title "network" then
    { r with category := "network_error"
           , rootCause := "External service unreachable or network issue"
           , suggestions := r.suggestions ++
               [ ⟨"check_provider", "Check upstream provider health", "high", none⟩
               , ⟨"add_retry", "Add retry with exponential backoff", "medium", none⟩
               , ⟨"add_circuit_breaker", "Implement circuit breaker", "medium", none⟩ ]
           , relatedPatterns := r.relatedPatterns ++
               ["Provider outage", "DNS failure", "Connection pool exhaustion"] }
  else if substrIncludes title "timeout" || substrIncludes title "aborterror" ||
      substrIncludes title "abort" || substrIncludes title "deadline" then
    { r with category := "timeout"
           , rootCause := "Operation exceeded time limit"
           , suggestions := r.suggestions ++
               [ ⟨"use_streaming", "Switch to streaming for long operations", "high", none⟩
               , ⟨"check_pool", "Check connection pool utilization", "medium", none⟩
               , ⟨"review_timeout", "Review timeout values", "medium", none⟩ ]
           , relatedPatterns := r.relatedPatterns ++
               ["Slow response", "Pool exhaustion", "Resource contention"] }
  else if substrIncludes title "unauthorized" || substrIncludes title "401" ||
      substrIncludes title "403" || substrIncludes title "forbidden" ||
      substrIncludes title "auth" then
    { r with category := "auth_error"
           , rootCause := "Authentication or authorization failure"
           , suggestions := r.suggestions ++
               [ ⟨"rotate_keys", "Check if API keys have expired", "high", none⟩
               , ⟨"check_config", "Verify auth configuration", "high", none⟩ ]
           , relatedPatterns := r.relatedPatterns ++
               ["Key rotation", "Tenant misconfiguration", "CORS"] }
  else if substrIncludes title "rate" || substrIncludes title "429" ||
      substrIncludes title "quota" || substrIncludes title "too many" then
    { r with category := "rate_limit"
           , rootCause := "Rate limit or quota exceeded"
           , suggestions := r.suggestions ++
               [ ⟨"check_quotas", "Review quota/rate limit settings", "high", none⟩
               , ⟨"add_queuing", "Add request queuing", "medium", none⟩ ]
           , relatedPatterns := r.relatedPatterns ++
               ["Provider rate limit", "Quota exceeded", "Burst traffic"] }
  else if substrIncludes title "database" || substrIncludes title "postgres" ||
      substrIncludes title "unique constraint" || substrIncludes title "deadlock" ||
      substrIncludes title "connection" then
    { r with category := "database_error"
           , rootCause := "Database connectivity or query issue"
           , suggestions := r.suggestions ++
               [ ⟨"check_db", "Verify database connectivity", "high", none⟩
               , ⟨"check_pool", "Review connection pool config", "medium", none⟩
               , ⟨"check_migrations", "Ensure migrations are applied", "medium", none⟩ ]
           , relatedPatterns := r.relatedPatterns ++
               ["Pool exhaustion", "Missing migration", "Lock contention"] }
  else if substrIncludes title "validation" || substrIncludes title "zod" ||
      substrIncludes title "parse" || substrIncludes title "schema" then
    { r with category := "validation_error"
           , rootCause := "Request payload failed schema validation"
           , suggestions := r.suggestions ++
               [ ⟨"check_schema", "Review API schema", "high", none⟩
               , ⟨"add_error_detail", "Return validation errors in API response", "high", none⟩ ]
           , relatedPatterns := r.relatedPatterns ++
               ["Schema mismatch", "Client update needed", "Missing field"] }
  else if substrIncludes title "heap" || substrIncludes title "out of memory" ||
      substrIncludes title "oom" then
    { r with category := "memory_leak"
           , rootCause := "Memory limit exceeded"
           , suggestions := r.suggestions ++
               [ ⟨"check_heap", "Take heap snapshot", "high", none⟩
               , ⟨"check_streams", "Verify streams are closed", "medium", none⟩ ]
           , relatedPatterns := r.relatedPatterns ++
               ["Unbounded cache", "Event listener leak", "Large payload"] }
  else
    { r with suggestions := r.suggestions ++
        [ ⟨"investigate", "Examine the full stack trace", "high", none⟩
        , ⟨"add_context", "Add breadcrumbs around the error", "medium", none⟩ ] }

/-- Embeds the classification part of `buildDiagnosis` (lines 124-212): lowercase
the title, culprit, and joined stack; take the first config pattern with a
matching keyword; then run the built-in fallback chain if and only if
`category` still equals the initial value `"application_error"` (which is also
the case when a config pattern with exactly that category name matched).
The independent known-issue scan (lines 215-219) follows this step in the
source and is embedded separately as `withKnownBugs`. -/
def classifyError (patterns : List DiagnosisPattern) (titleRaw culpritRaw : String)
    (stacktrace : List String) : ClassifyResult :=
  let title := lowerStr titleRaw
  let culprit := lowerStr culpritRaw
  let stack := lowerStr (String.intercalate "\n" stacktrace)
  let base : ClassifyResult :=
    { category := "application_error"
    , rootCause := "Application error in " ++
        (if culpritRaw == "" then "unknown location" else culpritRaw)
    , suggestions := []
    , relatedPatterns := [] }
  let afterPatterns :=
    match patterns.find? (fun p => patternMatches p title culprit stack) with
    | some p =>
      { category := p.category, rootCause := p.rootCause
      , suggestions := p.suggestions, relatedPatterns := p.relatedPatterns }
    | none => base
  if afterPatterns.category == "application_error" then builtinClassify title afterPatterns
  else afterPatterns

structure KnownBug where
  title : String
  keywords : List String
  fix : String
deriving DecidableEq, Repr

/-- Embeds the known-bug scan of `buildDiagnosis` (lines 215-219): every bug
with a keyword occurring in the lowercased title or joined stack prepends a
high-confidence `known_bug` suggestion (so the last matching bug ends first). -/
def withKnownBugs (bugs : List KnownBug) (titleRaw : String) (stacktrace : List String)
    (suggestions : List Suggestion) : List Suggestion :=
  let title := lowerStr titleRaw
  let stack := lowerStr (String.intercalate "\n" stacktrace)
  bugs.foldl
    (fun acc bug =>
      if bug.keywords.any fun kw => substrIncludes title kw || substrIncludes stack kw then
        ⟨"known_bug", "Known bug: " ++ bug.title ++ " — " ++ bug.fix, "high", none⟩ :: acc
      else acc)
    suggestions

/- ── Severity Scorer (src/tools/diagnosis.ts, buildDiagnosis lines 221-227) ── -/

inductive Severity
  | low
  | medium
  | high
  | critical
deriving DecidableEq, Repr

/-- Numeric rank of a severity tier: low < medium < high < critical. -/
def Severity.rank : Severity → Nat
  | .low => 0
  | .medium => 1
  | .high => 2
  | .critical => 3

/-- Embeds the severity rule of `buildDiagnosis` (lines 221-227).
`recentActivity` (`Date.now() - new Date(input.lastSeen).getTime() < 1000*60*60`)
is inlined as `nowMs - lastSeenMs < 3600000`. -/
def severityOf (level : String) (count userCount lastSeenMs nowMs : Int) : Severity :=
  if level = "fatal" ∨ count > 1000 ∨ (count > 100 ∧ nowMs - lastSeenMs < 3600000) then .critical
  else if level = "error" ∧ (count > 100 ∨ userCount > 10) then .high
  else if level = "error" ∧ count > 10 then .medium
  else .low

/- ── Cross-Service Correlator (src/tools/diagnosis.ts, cross_correlate) ───── -/

/-- Projection of a Sentry issue kept by the `cross_correlate` handler
(lines 85-90). `lastSeen` is embedded as epoch milliseconds (the source keeps
the string and parses it with `new Date(...).getTime()` when sorting); the
remaining projected fields (`shortId`, `culprit`, `count`, `firstSeen`) are
carried along unchanged by the handler and are represented by the ones that
take part in a decision or in the report. -/
structure Issue where
  id : String
  title : String
  level : String
  project : String
  lastSeen : Int
deriving DecidableEq, Repr

/-- Embeds the de-duplication loop of `cross_correlate` (lines 78-93): walk
all fetched issues in query order, keep an issue only when its id has not been
seen, remembering seen ids. -/
def dedupById : List Issue → List String → List Issue
  | [], _ => []
  | i :: rest, seen =>
    if i.id ∈ seen then dedupById rest seen
    else i :: dedupById rest (i.id :: seen)

/-- Walks a string list keeping only values not seen so far, as `Set.add`
does during `[...new Set(xs)]` construction. -/
def uniqueFirstAux : List String → List String → List String
  | [], _ => []
  | s :: rest, seen =>
    if s ∈ seen then uniqueFirstAux rest seen
    else s :: uniqueFirstAux rest (s :: seen)

/-- Embeds `[...new Set(xs)]`: distinct values in first-occurrence order. -/
def uniqueFirst (l : List String) : List String := uniqueFirstAux l []

/-- Sorting relation of `allIssues.sort((a, b) => lastSeen(b) - lastSeen(a))`:
most recent first. -/
def moreRecent (a b : Issue) : Prop := b.lastSeen ≤ a.lastSeen

instance : DecidableRel moreRecent := fun a b => Int.decLe b.lastSeen a.lastSeen

instance : IsTotal Issue moreRecent := ⟨fun a b => le_total b.lastSeen a.lastSeen⟩

instance : IsTrans Issue moreRecent := ⟨fun _ _ _ hab hbc => le_trans hbc hab⟩

/-- Embeds lines 78-96 of `cross_correlate`: flatten the per-query issue lists
in order, de-duplicate by id (first occurrence wins), and sort the survivors
by `lastSeen` descending (JS sort is stable; embedded by a stable sort). -/
def correlateTimeline (results : List (List Issue)) : List Issue :=
  List.insertionSort moreRecent (dedupById results.flatten [])

structure CorrelationReport where
  traceId : Option String
  runId : Option String
  totalIssues : Nat
  affectedServices : List String
  cascadeDetected : Bool
  timeline : List Issue
  analysis : String
deriving DecidableEq, Repr

/-- JS truthiness of an optional string parameter: `undefined` and `""` are
falsy. -/
def truthyStr : Option String → Bool
  | none => false
  | some s => !(s == "")

/-- Embeds the report assembly of `cross_correlate` (lines 94-108) given the
already-fetched per-query issue lists. -/
def buildReport (traceId runId : Option String) (results : List (List Issue)) :
    CorrelationReport :=
  let allIssues := correlateTimeline results
  let services := uniqueFirst ((allIssues.map Issue.project).filter fun s => !(s == ""))
  { traceId := if truthyStr traceId then traceId else none
  , runId := if truthyStr runId then runId else none
  , totalIssues := allIssues.length
  , affectedServices := services
  , cascadeDetected := services.length > 1
  , timeline := allIssues
  , analysis :=
      if services.length > 1 then
        "Cross-service error cascade detected across " ++ String.intercalate ", " services ++
          ". Investigate the oldest issue first."
      else if services.length = 1 then
        "Errors isolated to " ++ services.headD "" ++ ". No cross-service cascade."
      else "No errors found for this trace/run across any project." }

/-- Embeds the per-query try/catch of `cross_correlate` (lines 66-73): a
successful fetch contributes its issues, a failed fetch contributes `[]`. -/
def runQuery : Except String (List Issue) → List Issue
  | .ok issues => issues
  | .error _ => []

/-- Outcome of the `cross_correlate` tool: either the early usage-error
response (`err(...)`) or the JSON report. -/
inductive ToolResponse
  | failure (msg : String)
  | report (r : CorrelationReport)
deriving DecidableEq, Repr

/-- Embeds the query construction of `cross_correlate` (lines 54-60): for each
configured project, a `trace_id:` query when `traceId` is truthy and a
`run_id:` query when `runId` is truthy, in that order. -/
def buildQueries (projects : List String) (traceId runId : Option String) :
    List (String × String) :=
  (projects.map fun project =>
    (if truthyStr traceId then [(project, "trace_id:" ++ traceId.getD "")] else [])
    ++ (if truthyStr runId then [(project, "run_id:" ++ runId.getD "")] else [])).flatten

/-- Embeds the `results` assembly of `cross_correlate` (lines 62-76) composed
with the report assembly: each per-query outcome is absorbed by `runQuery`
(try/catch → `[]`), then the report is built over the collected lists. -/
def reportOfOutcomes (traceId runId : Option String)
    (outcomes : List (Except String (List Issue))) : CorrelationReport :=
  buildReport traceId runId (outcomes.map runQuery)

/-- Embeds the whole `cross_correlate` handler (lines 50-108): the guard
`if (!traceId && !runId) return err(...)`, then the per-query fetches (each
absorbed by `runQuery`; the source issues them in batches of 6 with
`Promise.all`, which preserves the query order of the collected results),
then the report assembly. `fetch` abstracts the `sentryFetch` collaborator. -/
def crossCorrelate (traceId runId : Option String) (projects : List String)
    (fetch : String → String → Except String (List Issue)) : ToolResponse :=
  if !truthyStr traceId && !truthyStr runId then
    .failure "Provide at least one of traceId or runId"
  else
    .report (reportOfOutcomes traceId runId
      ((buildQueries projects traceId runId).map fun q => fetch q.1 q.2))

/- ── Queue Health Analyzer (src/core/tools/openmeter.ts, outbox health) ──── -/

/-- Aggregate counters computed by the outbox-health SQL queries
(`parseInt` of `COUNT(*)` results, hence natural numbers). -/
structure QueueCounters where
  total : Nat
  pending : Nat
  sent : Nat
  deadLetter : Nat
  leased : Nat
  stuckLeases : Nat
deriving DecidableEq, Repr

/-- Embeds the four anomaly checks of `createOutboxHealthTool`
(lines 77-97), appended in the source's fixed order. The interpolated numeric
parts of the messages are rebuilt with `toString`. -/
def outboxAnomalies (c : QueueCounters) (queueDepthThreshold dlThreshold : Nat) :
    List String :=
  (if c.pending > queueDepthThreshold then
    ["HIGH QUEUE DEPTH: " ++ toString c.pending ++ " pending (threshold: " ++
      toString queueDepthThreshold ++ ")"]
  else [])
  ++ (if c.deadLetter > 0 then
    ["DEAD LETTERS: " ++ toString c.deadLetter ++ " events failed " ++
      toString dlThreshold ++ "+ times"]
  else [])
  ++ (if c.stuckLeases > 0 then
    ["STUCK LEASES: " ++ toString c.stuckLeases ++
      " events with expired leases — outbox worker may be down"]
  else [])
  ++ (if c.sent = 0 ∧ c.total > 0 then
    ["NO EVENTS SENT: Events created but none delivered — check API connectivity"]
  else [])

/-- Embeds `healthy: anomalies.length === 0` (line 112). -/
def outboxHealthy (c : QueueCounters) (queueDepthThreshold dlThreshold : Nat) : Bool :=
  (outboxAnomalies c queueDepthThreshold dlThreshold).length == 0

/-- Embeds the recommendations expression of `createOutboxHealthTool`
(lines 113-130): when any anomaly fired, the concatenation of the dead-letter,
stuck-lease, and high-pending recommendations (in that order, each guarded by
its own counter check); otherwise the single healthy recommendation. -/
def outboxRecommendations (c : QueueCounters) (queueDepthThreshold dlThreshold : Nat) :
    List String :=
  if (outboxAnomalies c queueDepthThreshold dlThreshold).length > 0 then
    (if c.deadLetter > 0 then ["Use openmeter_dead_letter_retry to retry failed events"] else [])
    ++ (if c.stuckLeases > 0 then ["Check outbox worker process — may need restart"] else [])
    ++ (if c.pending > queueDepthThreshold then
      ["Consider increasing batch_size or reducing interval_ms"] else [])
  else ["Outbox is healthy — all metrics normal"]

/- ── Usage Anomaly Detector (src/core/tools/openmeter.ts, usage anomaly) ─── -/

/-- One row of the FULL OUTER JOIN between the recent and baseline CTEs of
`createUsageAnomalyTool`: `none` means the account had no row on that side, so
the column is SQL `NULL` (JS `null`); the join never produces a row with both
sides absent. A present value is carried as its exact numeric value in ℚ,
though the unconfigured node-postgres driver (no `setTypeParser` anywhere in
the repo) hands `SUM`/`numeric` aggregates to JS as decimal *strings* — which
matters for truthiness (`truthyCol`) and is why the surrounding code uses
`parseInt`/`parseFloat` on them. -/
structure UsageRow where
  orgId : String
  recentTokens : Option ℚ
  baselineTokens : Option ℚ
deriving DecidableEq, Repr

/-- PostgreSQL `ROUND(x::numeric, 2)`: to two decimal places, ties away from
zero. -/
def roundTo2 (q : ℚ) : ℚ :=
  (if q < 0 then -(⌊-q * 100 + 1 / 2⌋ : ℤ) else (⌊q * 100 + 1 / 2⌋ : ℤ)) / 100

/-- Embeds the `token_ratio` column (line 316):
`CASE WHEN b.avg_tokens > 0 THEN ROUND((r.recent_tokens / b.avg_tokens)::numeric, 2) ELSE NULL END`
(SQL `NULL` propagates through the division when the recent side is absent). -/
def tokenRatio (r : UsageRow) : Option ℚ :=
  match r.baselineTokens with
  | some b => if 0 < b then r.recentTokens.map fun x => roundTo2 (x / b) else none
  | none => none

/-- JS truthiness of a driver-returned aggregate column: node-postgres
delivers `int8`/`numeric` aggregates as nonempty decimal strings, so every
present value — including `"0"` — is truthy, and only SQL `NULL` (JS `null`)
is falsy. -/
def truthyCol : Option ℚ → Bool
  | none => false
  | some _ => true

/-- Embeds the anomaly filter of `createUsageAnomalyTool` (lines 322-330):
`parseFloat(String(r.token_ratio || '0')) >= spikeThreshold || (r.baseline_tokens && !r.recent_tokens)`.
The ratio expression recovers the numeric value of the string column
(`'0'` is substituted only for `null`, and `parseFloat` of a present decimal
string — even `"0.00"`, which is truthy — is its value), hence `getD 0`. -/
def usageFlagged (spikeThreshold : ℚ) (r : UsageRow) : Bool :=
  decide ((tokenRatio r).getD 0 ≥ spikeThreshold)
    || (truthyCol r.baselineTokens && !truthyCol r.recentTokens)

/-- Embeds the `type` label attached to each flagged row (lines 338-340):
`!a.recent_tokens ? 'DROP (no recent usage)' : 'SPIKE (...)'`: the DROP label
is chosen exactly when the recent column is `null`. The interpolated
`a.token_ratio` is rendered via `getD 0`; for every flagged row with a recent
value the ratio column is non-null, so the default is never the rendered
value there. -/
def anomalyType (r : UsageRow) : String :=
  if !truthyCol r.recentTokens then "DROP (no recent usage)"
  else "SPIKE (" ++ toString ((tokenRatio r).getD 0) ++ "x baseline)"

/-- Modelled from the spec (section 4.7 and the C7 claim text), for comparison
with `usageFlagged`: an account is flagged iff `recentValue/baselineValue ≥
spikeThreshold`, or a baseline aggregate exists with no matching recent
aggregate (DROP); a zero or absent baseline leaves the ratio undefined so only
the DROP branch can apply. -/
def specFlagged (spikeThreshold : ℚ) (r : UsageRow) : Bool :=
  (match r.recentTokens, r.baselineTokens with
   | some x, some b => b != 0 && decide (x / b ≥ spikeThreshold)
   | _, _ => false)
  || (r.baselineTokens.isSome && r.recentTokens.isNone)

/- ── Concrete inputs used by the claim theorems and witnesses ─────────────── -/

/-- Operator pattern whose category happens to equal the classifier's initial
sentinel value `"application_error"`. -/
def opTimeoutPattern : DiagnosisPattern :=
  { category := "application_error"
  , keywords := ["timeout"]
  , rootCause := "Operator-defined timeout rule"
  , suggestions := [⟨"op_action", "Operator-supplied suggestion", "high", none⟩]
  , relatedPatterns := ["op_related"] }

/-- Earlier operator pattern (P) with the sentinel category name. -/
def patternP : DiagnosisPattern :=
  { category := "application_error"
  , keywords := ["boom"]
  , rootCause := "P root cause"
  , suggestions := [⟨"p_action", "P suggestion", "high", none⟩]
  , relatedPatterns := ["p_related"] }

/-- Later operator pattern (Q); its keyword also matches the sample title. -/
def patternQ : DiagnosisPattern :=
  { category := "timeout"
  , keywords := ["boom"]
  , rootCause := "Q root cause"
  , suggestions := [⟨"q_action", "Q suggestion", "low", none⟩]
  , relatedPatterns := ["q_related"] }

/-- Epoch-millisecond series of C2: nine events one minute apart (minutes 0-8),
then one final event after a single 2-hour gap. -/
def regressionGapSeries : List Int :=
  [0, 60000, 120000, 180000, 240000, 300000, 360000, 420000, 480000, 7680000]

/-- Issue id 42 as first returned by the `api` project query. -/
def issue42api : Issue :=
  { id := "42", title := "boom", level := "error", project := "api", lastSeen := 2000 }

/-- A second, distinct issue from the first query. -/
def issue7worker : Issue :=
  { id := "7", title := "slow", level := "warning", project := "worker", lastSeen := 1000 }

/-- Issue id 42 again, as returned by a different service query with a fresher
`lastSeen` and different attribution. -/
def issue42worker : Issue :=
  { id := "42", title := "boom", level := "error", project := "worker", lastSeen := 3000 }

/-- Two service-query results sharing issue id 42. -/
def sampleResults : List (List Issue) := [[issue42api, issue7worker], [issue42worker]]

/-- Counters with every anomaly check passing. -/
def healthyCounters : QueueCounters :=
  { total := 10, pending := 0, sent := 10, deadLetter := 0, leased := 0, stuckLeases := 0 }

/-- Counters where only the fourth anomaly check (no events sent) fires. -/
def noSentCounters : QueueCounters :=
  { total := 10, pending := 0, sent := 0, deadLetter := 0, leased := 0, stuckLeases := 0 }

/-- Join row at the rounding boundary: recent sum 599 tokens over a normalized
baseline of 200 tokens, a true ratio of 2.995. -/
def boundaryRow : UsageRow :=
  { orgId := "acme", recentTokens := some 599, baselineTokens := some 200 }

/-- The spec's SPIKE example row: recent 300 tokens against a normalized
baseline of 100. -/
def spikeRow : UsageRow :=
  { orgId := "acme", recentTokens := some 300, baselineTokens := some 100 }

/- ── Helper lemmas about the de-duplication loop ──────────────────────────── -/

/-- Every issue kept by the de-duplication loop has an id outside the seen set
and is exactly the first issue with its id in the remaining input. -/
theorem dedupById_mem (xs : List Issue) (seen : List String) (i : Issue)
    (hi : i ∈ dedupById xs seen) :
    i.id ∉ seen ∧ xs.find? (fun j => j.id == i.id) = some i := by
  induction xs generalizing seen with
  | nil => simp [dedupById] at hi
  | cons x rest ih =>
    by_cases hx : x.id ∈ seen
    · rw [dedupById, if_pos hx] at hi
      obtain ⟨hnot, hfind⟩ := ih seen hi
      refine ⟨hnot, ?_⟩
      rw [List.find?_cons_of_neg, hfind]
      simp only [beq_iff_eq]
      intro heq
      exact hnot (heq ▸ hx)
    · rw [dedupById, if_neg hx] at hi
      rcases List.mem_cons.mp hi with rfl | hi'
      · exact ⟨hx, List.find?_cons_of_pos _ (by simp)⟩
      · obtain ⟨hnot, hfind⟩ := ih (x.id :: seen) hi'
        have hne : x.id ≠ i.id := by
          intro he
          exact hnot (he ▸ List.mem_cons_self _ _)
        refine ⟨fun hs => hnot (List.mem_cons_of_mem _ hs), ?_⟩
        rw [List.find?_cons_of_neg, hfind]
        simpa using hne

/-- The ids of the issues kept by the de-duplication loop are pairwise
distinct. -/
theorem dedupById_ids_nodup (xs : List Issue) (seen : List String) :
    ((dedupById xs seen).map Issue.id).Nodup := by
  induction xs generalizing seen with
  | nil => simp [dedupById]
  | cons x rest ih =>
    by_cases hx : x.id ∈ seen
    · rw [dedupById, if_pos hx]
      exact ih seen
    · rw [dedupById, if_neg hx]
      rw [List.map_cons, List.nodup_cons]
      refine ⟨?_, ih (x.id :: seen)⟩
      intro hmem
      obtain ⟨j, hj, hjid⟩ := List.mem_map.mp hmem
      exact (dedupById_mem rest (x.id :: seen) j hj).1 (hjid ▸ List.mem_cons_self _ _)

/-- Every input issue's id is either already in the seen set or represented by
some kept issue. -/
theorem dedupById_covers (xs : List Issue) (seen : List String) (i : Issue) (hi : i ∈ xs) :
    i.id ∈ seen ∨ ∃ j ∈ dedupById xs seen, j.id = i.id := by
  induction xs generalizing seen with
  | nil => cases hi
  | cons x rest ih =>
    rcases List.mem_cons.mp hi with rfl | hi'
    · by_cases hx : i.id ∈ seen
      · exact Or.inl hx
      · exact Or.inr ⟨i, by rw [dedupById, if_neg hx]; exact List.mem_cons_self _ _, rfl⟩
    · by_cases hx : x.id ∈ seen
      · rw [dedupById, if_pos hx]
        exact ih seen hi'
      · rw [dedupById, if_neg hx]
        rcases ih (x.id :: seen) hi' with h | ⟨j, hj, hjid⟩
        · rcases List.mem_cons.mp h with he | hs
          · exact Or.inr ⟨x, List.mem_cons_self _ _, he.symm⟩
          · exact Or.inl hs
        · exact Or.inr ⟨j, List.mem_cons_of_mem _ hj, hjid⟩

/- ── Claim theorems ───────────────────────────────────────────────────────── -/

/-- C1: evaluates `buildDiagnosis`'s classification at an operator pattern
whose category is the sentinel string `"application_error"` and whose keyword
matches the title. The pattern matches and is taken first, yet the built-in
keyword rules run afterwards (because the code gates them on
`category === 'application_error'` rather than on "no pattern matched"),
overwrite the pattern's category and root cause, and append the built-in
timeout suggestions and related patterns — contradicting the claim that the
earliest matching pattern's fields are returned verbatim with no further
matching. -/
theorem builtin_overrides_matched_pattern :
    patternMatches opTimeoutPattern (lowerStr "timeout") (lowerStr "") (lowerStr "") = true
    ∧ classifyError [opTimeoutPattern] "timeout" "" [] =
        { category := "timeout"
        , rootCause := "Operation exceeded time limit"
        , suggestions := opTimeoutPattern.suggestions ++
            [ ⟨"use_streaming", "Switch to streaming for long operations", "high", none⟩
            , ⟨"check_pool", "Check connection pool utilization", "medium", none⟩
            , ⟨"review_timeout", "Review timeout values", "medium", none⟩ ]
        , relatedPatterns := opTimeoutPattern.relatedPatterns ++
            ["Slow response", "Pool exhaustion", "Resource contention"] }
    ∧ (classifyError [opTimeoutPattern] "timeout" "" []).category ≠ opTimeoutPattern.category
    ∧ (classifyError [opTimeoutPattern] "timeout" "" []).rootCause ≠ opTimeoutPattern.rootCause := by
  decide

/-- C2 counterexample: on nine events one minute apart followed by one event
after a 2-hour gap, `detectTemporalPattern` does not return `regression`. -/
theorem regression_gap_series_not_regression :
    detectTemporalPattern regressionGapSeries ≠ TemporalPattern.regression := by
  have h : detectTemporalPattern regressionGapSeries = TemporalPattern.burst := by
    norm_num [detectTemporalPattern, regressionGapSeries, List.insertionSort,
      List.orderedInsert]
  rw [h]
  exact fun hc => TemporalPattern.noConfusion hc

/-- C2 amended: on that series the burst check, which is evaluated first,
already fires (9 of the 10 points lie within the first 20% of the
2.13-hour span and the span exceeds one hour), so the verdict is `burst`;
the regression condition (largest gap > 5× average gap) also holds but is
never reached. -/
theorem regression_gap_series_is_burst :
    detectTemporalPattern regressionGapSeries = TemporalPattern.burst := by
  norm_num [detectTemporalPattern, regressionGapSeries, List.insertionSort,
    List.orderedInsert]

/-- C3: evaluates the classifier on a list where the earlier pattern P (with
category `"application_error"`) and the later pattern Q (category `"timeout"`)
both match the title. Because P's category equals the sentinel value, the
built-in rules re-run and return `"timeout"` — which is Q's category and not
P's, contradicting the order-precedence claim (and the code's own comment
that built-ins run only when no config pattern matched). -/
theorem later_pattern_category_returned :
    patternMatches patternP (lowerStr "boom timeout") (lowerStr "") (lowerStr "") = true
    ∧ patternMatches patternQ (lowerStr "boom timeout") (lowerStr "") (lowerStr "") = true
    ∧ (classifyError [patternP, patternQ] "boom timeout" "" []).category = patternQ.category
    ∧ (classifyError [patternP, patternQ] "boom timeout" "" []).category ≠ patternP.category := by
  decide

/-- C4: the severity tier of `buildDiagnosis` is monotone in `count` for fixed
level, userCount, and lastSeen (hence fixed recency): increasing the count
never decreases the rank under low < medium < high < critical. -/
theorem severity_monotone_in_count (level : String) (c₁ c₂ userCount lastSeenMs nowMs : Int)
    (h : c₁ ≤ c₂) :
    (severityOf level c₁ userCount lastSeenMs nowMs).rank ≤
      (severityOf level c₂ userCount lastSeenMs nowMs).rank := by
  unfold severityOf
  split_ifs <;> simp_all [Severity.rank] <;> omega

/-- C4 witness: instantiates the monotonicity theorem at level "error",
counts 5 ≤ 200. -/
theorem severity_monotone_in_count_witness :
    (5 : Int) ≤ 200 ∧
      (severityOf "error" 5 0 0 0).rank ≤ (severityOf "error" 200 0 0 0).rank :=
  ⟨by decide, severity_monotone_in_count "error" 5 200 0 0 0 (by decide)⟩

/-- C5: in the correlator's timeline, ids are pairwise distinct; every timeline
entry is exactly the first occurrence of its id in the flattened query results
(so the first occurrence's service attribution is kept); every input issue's
id is represented; and the timeline is sorted by `lastSeen` descending. -/
theorem correlator_timeline_dedup (results : List (List Issue)) :
    ((correlateTimeline results).map Issue.id).Nodup
    ∧ (∀ i ∈ correlateTimeline results,
        results.flatten.find? (fun j => j.id == i.id) = some i)
    ∧ (∀ i ∈ results.flatten, ∃ j ∈ correlateTimeline results, j.id = i.id)
    ∧ (correlateTimeline results).Sorted fun a b => b.lastSeen ≤ a.lastSeen := by
  have hperm : List.Perm (correlateTimeline results) (dedupById results.flatten []) :=
    List.perm_insertionSort _ _
  refine ⟨?_, ?_, ?_, ?_⟩
  · exact ((hperm.map Issue.id).nodup_iff).mpr (dedupById_ids_nodup _ _)
  · intro i hi
    exact (dedupById_mem _ _ i (hperm.mem_iff.mp hi)).2
  · intro i hi
    rcases dedupById_covers results.flatten [] i hi with h | ⟨j, hj, hjid⟩
    · cases h
    · exact ⟨j, hperm.mem_iff.mpr hj, hjid⟩
  · exact List.sorted_insertionSort moreRecent _

/-- C5 witness: applies the theorem to two query results sharing issue id 42:
the id is represented in the timeline. -/
theorem correlator_timeline_dedup_witness :
    ∃ j ∈ correlateTimeline sampleResults, j.id = "42" :=
  (correlator_timeline_dedup sampleResults).2.2.1 issue42api (by decide)

/-- C6: the outbox snapshot is healthy iff the anomalies list is empty, iff
all four checks pass (pending within threshold, no dead letters, no stuck
leases, and not "created but none sent"); and with no anomaly the
recommendations are exactly the single healthy recommendation. -/
theorem outbox_healthy_iff (c : QueueCounters) (qth dlth : Nat) :
    (outboxHealthy c qth dlth = true ↔ outboxAnomalies c qth dlth = [])
    ∧ (outboxHealthy c qth dlth = true ↔
        (c.pending ≤ qth ∧ c.deadLetter = 0 ∧ c.stuckLeases = 0 ∧ ¬(c.sent = 0 ∧ 0 < c.total)))
    ∧ (outboxAnomalies c qth dlth = [] →
        outboxRecommendations c qth dlth = ["Outbox is healthy — all metrics normal"]) := by
  unfold outboxHealthy outboxRecommendations outboxAnomalies
  split_ifs <;> simp_all <;> omega

/-- C6 witness: all-normal counters with sent > 0 give a healthy verdict and
the single healthy recommendation. -/
theorem outbox_healthy_iff_witness :
    outboxHealthy healthyCounters 500 3 = true
    ∧ outboxRecommendations healthyCounters 500 3 = ["Outbox is healthy — all metrics normal"] :=
  ⟨(outbox_healthy_iff healthyCounters 500 3).2.1.mpr (by decide),
   (outbox_healthy_iff healthyCounters 500 3).2.2 (by decide)⟩

/-- C7 counterexample: a row whose true ratio is 2.995 against threshold 3 is
flagged by the code — the SQL `ROUND(...,2)` turns 2.995 into 3.00 before the
comparison — although the claim's predicate (recent/baseline at least the
threshold, or baseline present with no recent aggregate) is false for it. -/
theorem usage_rounded_ratio_flag_counterexample :
    usageFlagged 3 boundaryRow = true
    ∧ specFlagged 3 boundaryRow = false
    ∧ (599 : ℚ) / 200 < 3 := by
  refine ⟨?_, ?_, by norm_num⟩
  · norm_num [usageFlagged, tokenRatio, roundTo2, truthyCol, boundaryRow]
  · norm_num [specFlagged, boundaryRow]

/-- C7 amended: for a positive spike threshold, a join row is flagged iff the
two-decimal-rounded ratio of a present recent aggregate over a present,
positive baseline reaches the threshold (the SPIKE branch), or a baseline row
exists (even with zero tokens) while no recent row exists (the DROP branch).
A row with neither side present is never flagged; a zero or absent baseline
yields no ratio (the `CASE WHEN b.avg_tokens > 0` guard, so no division error
and the value defaults to 0), leaving only the DROP branch. Flagged rows are
labeled DROP exactly when the recent column is null, else SPIKE. -/
theorem usage_flagged_iff (th : ℚ) (r : UsageRow) (hth : 0 < th) :
    (usageFlagged th r = true ↔
      ((∃ x b, r.recentTokens = some x ∧ r.baselineTokens = some b ∧ 0 < b ∧
          th ≤ roundTo2 (x / b))
        ∨ (r.baselineTokens.isSome = true ∧ r.recentTokens = none)))
    ∧ (r.recentTokens = none → r.baselineTokens = none → usageFlagged th r = false)
    ∧ (r.recentTokens = none → anomalyType r = "DROP (no recent usage)")
    ∧ (∀ x, r.recentTokens = some x →
        anomalyType r = "SPIKE (" ++ toString ((tokenRatio r).getD 0) ++ "x baseline)") := by
  obtain ⟨org, rec, base⟩ := r
  rcases rec with _ | x <;> rcases base with _ | b <;>
    simp [usageFlagged, tokenRatio, truthyCol, anomalyType, hth.not_le]
  by_cases hb : (0:ℚ) < b
  · simp [hb]
  · simp [hb, hth.not_le]

/-- C7 witness: the spec's example — recent 300 tokens over baseline 100 with
threshold 3 — is flagged through the spike branch of the amended claim. -/
theorem usage_flagged_iff_witness :
    (0:ℚ) < 3 ∧ usageFlagged 3 spikeRow = true :=
  ⟨by norm_num, (usage_flagged_iff 3 spikeRow (by norm_num)).1.mpr
    (Or.inl ⟨300, 100, rfl, rfl, by norm_num, by norm_num [roundTo2]⟩)⟩

/-- C8: a failed per-service query contributes exactly zero issues — the
correlation report over the query outcomes with a failed query inserted
anywhere equals the report over the remaining outcomes alone, for every
surrounding outcome list. -/
theorem failed_query_absorbed (traceId runId : Option String) (e : String)
    (pre post : List (Except String (List Issue))) :
    reportOfOutcomes traceId runId (pre ++ [Except.error e] ++ post) =
      reportOfOutcomes traceId runId (pre ++ post) := by
  have hflat : ((pre ++ [Except.error e] ++ post).map runQuery).flatten
      = ((pre ++ post).map runQuery).flatten := by
    simp [runQuery]
  unfold reportOfOutcomes buildReport correlateTimeline
  rw [hflat]

/-- C9: with both identifiers falsy the handler returns the distinct usage
error for every fetcher (so no per-service query can influence the outcome);
with at least one identifier truthy and every query succeeding with zero
issues, it returns a report — not an error — whose analysis is the
"nothing found" text. -/
theorem cross_correlate_identifier_guard (t r : Option String) (projects : List String)
    (fetch fetch2 : String → String → Except String (List Issue)) :
    (truthyStr t = false → truthyStr r = false →
      crossCorrelate t r projects fetch = .failure "Provide at least one of traceId or runId"
      ∧ crossCorrelate t r projects fetch = crossCorrelate t r projects fetch2)
    ∧ ((truthyStr t || truthyStr r) = true → (∀ p q, fetch p q = Except.ok []) →
      ∃ rep, crossCorrelate t r projects fetch = .report rep
        ∧ rep.totalIssues = 0
        ∧ rep.analysis = "No errors found for this trace/run across any project.") := by
  constructor
  · intro ht hr
    rw [crossCorrelate, crossCorrelate, if_pos, if_pos] <;> simp [ht, hr]
  · intro hor hfetch
    have hguard : (!truthyStr t && !truthyStr r) = false := by
      rcases Bool.or_eq_true_iff.mp hor with h | h <;> simp [h]
    have hempty : ((buildQueries projects t r).map fun q => fetch q.1 q.2).map runQuery
        = (buildQueries projects t r).map fun _ => ([] : List Issue) := by
      simp [hfetch, runQuery]
    refine ⟨_, by rw [crossCorrelate, if_neg (by simp [hguard])], ?_, ?_⟩
    · simp [reportOfOutcomes, buildReport, correlateTimeline, hempty, dedupById,
        List.flatten_eq_nil_iff]
    · simp [reportOfOutcomes, buildReport, correlateTimeline, hempty, dedupById,
        List.flatten_eq_nil_iff, uniqueFirst, uniqueFirstAux]

/-- C9 witness: with neither identifier the concrete call returns the usage
error even though the fetcher has issues to return; with a traceId and empty
query results it returns the "nothing found" report. -/
theorem cross_correlate_identifier_guard_witness :
    crossCorrelate none none ["api"] (fun _ _ => Except.ok [issue42api]) =
      ToolResponse.failure "Provide at least one of traceId or runId"
    ∧ ∃ rep, crossCorrelate (some "deadbeef") none ["api"] (fun _ _ => Except.ok []) =
        ToolResponse.report rep ∧ rep.totalIssues = 0
        ∧ rep.analysis = "No errors found for this trace/run across any project." :=
  ⟨((cross_correlate_identifier_guard none none ["api"] (fun _ _ => Except.ok [issue42api])
      (fun _ _ => Except.ok [issue42api])).1 rfl rfl).1,
   (cross_correlate_identifier_guard (some "deadbeef") none ["api"] (fun _ _ => Except.ok [])
      (fun _ _ => Except.ok [])).2 (by decide) (fun _ _ => rfl)⟩

/-- C10: when only the fourth anomaly check fires (sent = 0 with total > 0
while the other three checks pass), the snapshot is unhealthy yet the
recommendations list is empty — the recommendation mapping has no entry for
the no-events-sent anomaly. -/
theorem no_sent_anomaly_empty_recommendations (c : QueueCounters) (qth dlth : Nat)
    (h1 : c.pending ≤ qth) (h2 : c.deadLetter = 0) (h3 : c.stuckLeases = 0)
    (h4 : c.sent = 0) (h5 : 0 < c.total) :
    outboxHealthy c qth dlth = false ∧ outboxRecommendations c qth dlth = [] := by
  unfold outboxHealthy outboxRecommendations outboxAnomalies
  split_ifs <;> simp_all <;> omega

/-- C10 witness: concrete counters with ten created and zero sent events give
an unhealthy verdict and no recommendation. -/
theorem no_sent_anomaly_empty_recommendations_witness :
    outboxHealthy noSentCounters 500 3 = false
    ∧ outboxRecommendations noSentCounters 500 3 = [] :=
  no_sent_anomaly_empty_recommendations noSentCounters 500 3
    (by decide) (by decide) (by decide) (by decide) (by decide)

end LucidObs
